import Mathlib

/-!
Verification of the diy-lisp reader and evaluator (src/diylisp/parser.py,
src/diylisp/evaluator.py, src/diylisp/types.py) against its natural-language
specification.

The Python values and ASTs share one representation (code as data), so both
are embedded as the inductive type `SExpr`.  Python `Environment` objects are
mutable dictionaries; we model the object heap explicitly: a `Store` holds a
list of dictionaries, and an environment is an address (index) into that heap,
so in-place mutation by `Environment.set` and aliasing of captured
environments behave exactly as in Python.  Closures additionally carry a
fresh numeric identity (Python object identity, used by `==` on closures).

Python exceptions are embedded as `Except Err`: `Err.lisp` is `LispError`,
`Err.pyError` is any other host exception (`AssertionError`, `IndexError`,
`UnboundLocalError`, `ZeroDivisionError`), and `Err.outOfFuel` marks
exhaustion of the step fuel that makes the recursive interpreter total.
-/

/-- A Lisp value / AST node.  `closure` carries the Python object identity,
the address of the captured environment, the parameter list and the body.
The closure payload is modelled from the spec (§3, §4.2): `Closure.__init__`
in types.py is an unimplemented `NotImplementedError` stub, while its callers
(`eval_lambda`, `eval_closure`, `Closure.__str__`) use the attributes
`env`, `params` and `body`. -/
inductive SExpr where
  | int (n : Int)
  | bool (b : Bool)
  | sym (s : String)
  | list (items : List SExpr)
  | closure (id : Nat) (env : Nat) (params : List SExpr) (body : SExpr)

mutual
/-- Decidable structural equality for `SExpr` (the derive handler does not
support the nested occurrence of `List SExpr`). -/
def SExpr.decEq : (a b : SExpr) → Decidable (a = b)
  | .int a, .int b =>
      if h : a = b then .isTrue (by rw [h]) else .isFalse (fun hh => h (by injection hh))
  | .bool a, .bool b =>
      if h : a = b then .isTrue (by rw [h]) else .isFalse (fun hh => h (by injection hh))
  | .sym a, .sym b =>
      if h : a = b then .isTrue (by rw [h]) else .isFalse (fun hh => h (by injection hh))
  | .list a, .list b =>
      match SExpr.decEqList a b with
      | .isTrue h => .isTrue (by rw [h])
      | .isFalse h => .isFalse (fun hh => h (by injection hh))
  | .closure i1 e1 p1 b1, .closure i2 e2 p2 b2 =>
      if hi : i1 = i2 then
        if he : e1 = e2 then
          match SExpr.decEqList p1 p2 with
          | .isTrue hp =>
              match SExpr.decEq b1 b2 with
              | .isTrue hb => .isTrue (by rw [hi, he, hp, hb])
              | .isFalse hb => .isFalse (fun hh => hb (by injection hh))
          | .isFalse hp => .isFalse (fun hh => hp (by injection hh))
        else .isFalse (fun hh => he (by injection hh))
      else .isFalse (fun hh => hi (by injection hh))
  | .int _, .bool _ => .isFalse nofun
  | .int _, .sym _ => .isFalse nofun
  | .int _, .list _ => .isFalse nofun
  | .int _, .closure _ _ _ _ => .isFalse nofun
  | .bool _, .int _ => .isFalse nofun
  | .bool _, .sym _ => .isFalse nofun
  | .bool _, .list _ => .isFalse nofun
  | .bool _, .closure _ _ _ _ => .isFalse nofun
  | .sym _, .int _ => .isFalse nofun
  | .sym _, .bool _ => .isFalse nofun
  | .sym _, .list _ => .isFalse nofun
  | .sym _, .closure _ _ _ _ => .isFalse nofun
  | .list _, .int _ => .isFalse nofun
  | .list _, .bool _ => .isFalse nofun
  | .list _, .sym _ => .isFalse nofun
  | .list _, .closure _ _ _ _ => .isFalse nofun
  | .closure _ _ _ _, .int _ => .isFalse nofun
  | .closure _ _ _ _, .bool _ => .isFalse nofun
  | .closure _ _ _ _, .sym _ => .isFalse nofun
  | .closure _ _ _ _, .list _ => .isFalse nofun

def SExpr.decEqList : (a b : List SExpr) → Decidable (a = b)
  | [], [] => .isTrue rfl
  | [], _ :: _ => .isFalse nofun
  | _ :: _, [] => .isFalse nofun
  | x :: xs, y :: ys =>
      match SExpr.decEq x y, SExpr.decEqList xs ys with
      | .isTrue h1, .isTrue h2 => .isTrue (by rw [h1, h2])
      | .isFalse h1, _ => .isFalse (fun hh => h1 (by injection hh))
      | .isTrue _, .isFalse h2 => .isFalse (fun hh => h2 (by injection hh))
end

instance : DecidableEq SExpr := SExpr.decEq

/-- Outcomes of running embedded Python code. -/
inductive Err where
  | lisp (msg : String)
  | pyError (kind : String)
  | outOfFuel
deriving DecidableEq

/-- A Python dict used as the binding table of one `Environment` object. -/
abbrev Dict := List (SExpr × SExpr)

/-- The heap of `Environment` objects plus the next fresh closure identity. -/
structure Store where
  heap : List Dict
  nextId : Nat
deriving DecidableEq

abbrev Res := Except Err (SExpr × Store)

/-- Python `d[k]` / `k in d` lookup (first matching key; dicts built by the
operations below keep keys unique). -/
def dictLookup : Dict → SExpr → Option SExpr
  | [], _ => none
  | (k2, v) :: d, k => if k2 = k then some v else dictLookup d k

/-- Python `d[k] = v`: replace the value of an existing key in place,
otherwise append the new binding. -/
def dictInsert : Dict → SExpr → SExpr → Dict
  | [], k, v => [(k, v)]
  | (k2, v2) :: d, k, v => if k2 = k then (k, v) :: d else (k2, v2) :: dictInsert d k v

/-- Python `d1.update(d2)`: insert every pair of `d2` into `d1`, left to
right, so `d2` wins on key collision. -/
def dictUpdate (d1 d2 : Dict) : Dict :=
  d2.foldl (fun acc p => dictInsert acc p.1 p.2) d1

/-- Python `dict(pairs)` (as produced by `dict(zip(params, values))`). -/
def dictFromPairs (ps : List (SExpr × SExpr)) : Dict :=
  dictUpdate [] ps

/-- The dict of the environment object at address `env`. -/
def heapDict (st : Store) (env : Nat) : Dict :=
  st.heap.getD env []

/-- Modelled from the spec: `is_list` from the missing module ast.py
classifies exactly `List` nodes as lists (§6, glossary). -/
def is_list : SExpr → Bool
  | .list _ => true
  | _ => false

/-- Modelled from the spec: `is_atom` from the missing module ast.py — an
atom is any non-list value: integer, boolean, symbol or closure (§4.2
`atom` row, glossary). -/
def is_atom : SExpr → Bool
  | .list _ => false
  | _ => true

/-- Modelled from the spec: `is_symbol` from the missing module ast.py. -/
def is_symbol : SExpr → Bool
  | .sym _ => true
  | _ => false

/-- Modelled from the spec: `is_boolean` from the missing module ast.py —
exactly the two boolean literals (§3). -/
def is_boolean : SExpr → Bool
  | .bool _ => true
  | _ => false

/-- Modelled from the spec: `is_integer` from the missing module ast.py —
integer literals, with booleans distinct from integers (§3; §8 requires
`(+ 2 #t)` to fail with a type error). -/
def is_integer : SExpr → Bool
  | .int _ => true
  | _ => false

/-- Modelled from the spec: `is_closure` from the missing module ast.py. -/
def is_closure : SExpr → Bool
  | .closure _ _ _ _ => true
  | _ => false

/-- Python truthiness of a Lisp value, as used by `if evaluate(...):` in
`eval_if`: `False`, `0`, the empty list and the empty string are falsy,
everything else (including closures) is truthy. -/
def pyTruthy : SExpr → Bool
  | .int n => decide (n ≠ 0)
  | .bool b => b
  | .sym s => decide (s ≠ "")
  | .list items => !items.isEmpty
  | .closure _ _ _ _ => true

mutual
/-- Python `==` on Lisp values: numeric comparison identifies booleans with
0/1, symbols compare as strings, lists compare elementwise, and closures
(plain objects without `__eq__`) compare by object identity. -/
def pyEq : SExpr → SExpr → Bool
  | .int a, .int b => decide (a = b)
  | .int a, .bool b => decide (a = (if b then 1 else 0))
  | .bool a, .int b => decide ((if a then (1 : Int) else 0) = b)
  | .bool a, .bool b => a == b
  | .sym a, .sym b => a == b
  | .list a, .list b => pyEqList a b
  | .closure i _ _ _, .closure j _ _ _ => i == j
  | _, _ => false

def pyEqList : List SExpr → List SExpr → Bool
  | [], [] => true
  | a :: as2, b :: bs => pyEq a b && pyEqList as2 bs
  | _, _ => false
end

/-- The `BUILTINS` table of evaluator.py, as a partial map from operator
name to the binary integer operation.  `operator.div` and `operator.mod` are
the Python 2 integer operations: floor division and the modulo that takes
the divisor's sign; division by zero raises a host `ZeroDivisionError`. -/
def BUILTINS : String → Option (Int → Int → Except Err SExpr)
  | "+" => some fun a b => .ok (.int (a + b))
  | "-" => some fun a b => .ok (.int (a - b))
  | "*" => some fun a b => .ok (.int (a * b))
  | "/" => some fun a b =>
      if b = 0 then .error (.pyError "ZeroDivisionError") else .ok (.int (Int.fdiv a b))
  | "mod" => some fun a b =>
      if b = 0 then .error (.pyError "ZeroDivisionError") else .ok (.int (Int.fmod a b))
  | ">" => some fun a b => .ok (.bool (decide (a > b)))
  | "<" => some fun a b => .ok (.bool (decide (a < b)))
  | _ => none

/-- Modelled from the spec: `assert_exp_length` from the missing module
asserts.py — the arity check (§6) that "fails with a uniform 'wrong number
of arguments' error". -/
def assert_exp_length (ast : List SExpr) (n : Nat) : Except Err Unit :=
  if ast.length = n then .ok () else .error (.lisp "Wrong number of arguments")

/-- `Environment.lookup` (types.py): raise `LispError` when the symbol is
not a key of this object's dict, else return its value. -/
def Environment.lookup (st : Store) (env : Nat) (s : SExpr) : Except Err SExpr :=
  match dictLookup (heapDict st env) s with
  | some v => .ok v
  | none => .error (.lisp "symbol not defined")

/-- `Environment.extend` (types.py): build a fresh dict holding the parent
bindings updated by `bindings`, wrap it in a new `Environment` object
(a fresh heap address), and return that object. -/
def Environment.extend (st : Store) (env : Nat) (bindings : Dict) : Nat × Store :=
  let var := dictUpdate (heapDict st env) bindings
  (st.heap.length, ⟨st.heap ++ [var], st.nextId⟩)

/-- `Environment.set` (types.py): raise `LispError` when the symbol is
already a key of this object's dict, else add the binding in place. -/
def Environment.set (st : Store) (env : Nat) (s v : SExpr) : Except Err Store :=
  if (dictLookup (heapDict st env) s).isSome then .error (.lisp "already defined")
  else .ok ⟨st.heap.set env (heapDict st env ++ [(s, v)]), st.nextId⟩

/-- Modelled from the spec: `Closure.__init__` (types.py) is an
unimplemented `NotImplementedError` stub; per §3 a `Closure` "owns the
environment active at the point the `lambda` form was evaluated, an ordered
list of parameter symbols, and a single body `AST` node".  A fresh object
identity is also drawn, since Python closures compare by identity. -/
def Closure.init (st : Store) (env : Nat) (params : List SExpr) (body : SExpr) : SExpr × Store :=
  (.closure st.nextId env params body, ⟨st.heap, st.nextId + 1⟩)

/-- `map(lambda e: evaluate(e, env), rest)` in `eval_closure`: evaluate the
argument expressions left to right in the given environment, threading the
store. -/
def eval_args (ev : SExpr → Nat → Store → Res) : List SExpr → Nat → Store → Except Err (List SExpr × Store)
  | [], _, st => .ok ([], st)
  | e :: es, env, st => do
      let (v, st1) ← ev e env st
      let (vs, st2) ← eval_args ev es env st1
      .ok (v :: vs, st2)

/-- `eval_if` (evaluator.py): assert the head, check arity 4, evaluate the
predicate, then evaluate exactly one of the two branches depending on the
Python truthiness of the predicate's value. -/
def eval_if (ev : SExpr → Nat → Store → Res) (ast : List SExpr) (env : Nat) (st : Store) : Res :=
  match ast with
  | [] => .error (.pyError "IndexError")
  | first :: _ =>
    if first ≠ .sym "if" then .error (.pyError "AssertionError")
    else match assert_exp_length ast 4, ast with
    | .error e, _ => .error e
    | .ok _, [_, p, c, a] => do
        let (v, st1) ← ev p env st
        if pyTruthy v then ev c env st1 else ev a env st1
    | .ok _, _ => .error (.pyError "IndexError")

/-- `eval_eq` (evaluator.py): evaluate both arguments; answer `False` as
soon as either value is not an atom, else compare with Python `==`. -/
def eval_eq (ev : SExpr → Nat → Store → Res) (ast : List SExpr) (env : Nat) (st : Store) : Res :=
  match ast with
  | [] => .error (.pyError "IndexError")
  | first :: _ =>
    if first ≠ .sym "eq" then .error (.pyError "AssertionError")
    else match assert_exp_length ast 3, ast with
    | .error e, _ => .error e
    | .ok _, [_, e1, e2] => do
        let (a, st1) ← ev e1 env st
        let (b, st2) ← ev e2 env st1
        if !is_atom a then .ok (.bool false, st2)
        else if !is_atom b then .ok (.bool false, st2)
        else .ok (.bool (pyEq a b), st2)
    | .ok _, _ => .error (.pyError "IndexError")

/-- `eval_define` (evaluator.py): check arity with a dedicated message,
require a symbol, evaluate the value expression, bind it via
`Environment.set` on the current environment, and return the value. -/
def eval_define (ev : SExpr → Nat → Store → Res) (ast : List SExpr) (env : Nat) (st : Store) : Res :=
  match ast with
  | [] => .error (.pyError "IndexError")
  | first :: rest =>
    if first ≠ .sym "define" then .error (.pyError "AssertionError")
    else if (first :: rest).length ≠ 3 then .error (.lisp "define: Wrong number of arguments")
    else match rest with
    | [s, e] =>
        if !is_symbol s then .error (.lisp "define: non-symbol")
        else do
          let (v, st1) ← ev e env st
          match Environment.set st1 env s v with
          | .ok st2 => .ok (v, st2)
          | .error er => .error er
    | _ => .error (.pyError "IndexError")

/-- `eval_builtin` (evaluator.py): check arity 3, evaluate both operands,
require integers (else a `LispError` naming the operator), then apply the
`BUILTINS` operation — the environment is never consulted for the head. -/
def eval_builtin (ev : SExpr → Nat → Store → Res) (ast : List SExpr) (env : Nat) (st : Store) : Res :=
  match assert_exp_length ast 3, ast with
  | .error e, _ => .error e
  | .ok _, [name, e1, e2] =>
      match name with
      | .sym s =>
        match BUILTINS s with
        | none => .error (.pyError "AssertionError")
        | some op => do
            let (a, st1) ← ev e1 env st
            let (b, st2) ← ev e2 env st1
            match a, b with
            | .int va, .int vb =>
                match op va vb with
                | .ok v => .ok (v, st2)
                | .error er => .error er
            | .int _, _ => .error (.lisp "Builtin can only use integers")
            | _, _ => .error (.lisp "Builtin can only use integers")
      | _ => .error (.pyError "AssertionError")
  | .ok _, _ => .error (.pyError "IndexError")

/-- `eval_lambda` (evaluator.py): check arity with a dedicated message,
require the parameter position to hold a list, and build a `Closure`
capturing the current environment, the parameters and the unevaluated
body. -/
def eval_lambda (ast : List SExpr) (env : Nat) (st : Store) : Res :=
  match ast with
  | [] => .error (.pyError "IndexError")
  | first :: rest =>
    if first ≠ .sym "lambda" then .error (.pyError "AssertionError")
    else if (first :: rest).length ≠ 3 then .error (.lisp "lambda: Wrong number of arguments")
    else match rest with
    | [params, body] =>
        if !is_list params then .error (.lisp "lambda: params must be lists")
        else match params with
        | .list ps => .ok (Closure.init st env ps body)
        | _ => .error (.pyError "AssertionError")
    | _ => .error (.pyError "IndexError")

/-- `eval_closure` (evaluator.py): check the arity against the parameter
list, evaluate the arguments left to right in the caller's environment,
zip them with the parameters into a dict, extend the closure's captured
environment once, and evaluate the body there. -/
def eval_closure (ev : SExpr → Nat → Store → Res) (ast : List SExpr) (env : Nat) (st : Store) : Res :=
  match ast with
  | [] => .error (.pyError "IndexError")
  | c :: rest =>
    match c with
    | .closure _ cenv params body =>
        if rest.length ≠ params.length then .error (.lisp "wrong number of arguments")
        else do
          let (values, st1) ← eval_args ev rest env st
          let bindings := dictFromPairs (params.zip values)
          let (newEnv, st2) := Environment.extend st1 cenv bindings
          ev body newEnv st2
    | _ => .error (.pyError "AssertionError")

/-- `eval_atom` (evaluator.py): booleans and integers are self-evaluating,
symbols are looked up in the current environment, and any other atom (a
closure) cannot be evaluated. -/
def eval_atom (ast : SExpr) (env : Nat) (st : Store) : Res :=
  if !is_atom ast then .error (.pyError "AssertionError")
  else if is_boolean ast then .ok (ast, st)
  else if is_symbol ast then
    match Environment.lookup st env ast with
    | .ok v => .ok (v, st)
    | .error e => .error e
  else if is_integer ast then .ok (ast, st)
  else .error (.lisp "Cannot evaluate atom")

/-- `eval_list` (evaluator.py): dispatch on the head of a non-empty list —
the special forms first, then closure-valued heads, then nested-list heads
(evaluated and required to be closures), then the builtin table, then
symbols looked up in the environment and required to be closures. -/
def eval_list (ev : SExpr → Nat → Store → Res) (ast : SExpr) (env : Nat) (st : Store) : Res :=
  match ast with
  | .list [] => .ok (.list [], st)
  | .list (first :: rest) =>
    match first with
    | .sym "quote" =>
        (assert_exp_length (first :: rest) 2).bind fun _ =>
          match rest with
          | x :: _ => .ok (x, st)
          | [] => .error (.pyError "IndexError")
    | .sym "if" => eval_if ev (first :: rest) env st
    | .sym "atom" =>
        (assert_exp_length (first :: rest) 2).bind fun _ =>
          match rest with
          | x :: _ => (ev x env st).bind fun r => .ok (.bool (is_atom r.1), r.2)
          | [] => .error (.pyError "IndexError")
    | .sym "eq" => eval_eq ev (first :: rest) env st
    | .sym "define" => eval_define ev (first :: rest) env st
    | .sym "lambda" => eval_lambda (first :: rest) env st
    | .closure _ _ _ _ => eval_closure ev (first :: rest) env st
    | .list _ => do
        let (c, st1) ← ev first env st
        if is_closure c then eval_closure ev (c :: rest) env st1
        else .error (.lisp "Can't call")
    | .sym s =>
        if (BUILTINS s).isSome then eval_builtin ev (first :: rest) env st
        else match Environment.lookup st env first with
        | .error e => .error e
        | .ok v =>
            if is_closure v then eval_closure ev (v :: rest) env st
            else .error (.lisp "Can't call")
    | _ => .error (.lisp "not a function")
  | _ => .error (.pyError "AssertionError")

/-- `evaluate` (evaluator.py): atoms via `eval_atom`, lists via
`eval_list`.  The `Nat` fuel bounds the recursion depth and makes the
interpreter total; it plays no semantic role. -/
def evaluate : Nat → SExpr → Nat → Store → Res
  | 0, _, _, _ => .error .outOfFuel
  | fuel + 1, ast, env, st =>
    if is_atom ast then eval_atom ast env st
    else eval_list (evaluate fuel) ast env st

/-- The root store used by concrete runs: one empty environment object at
address 0 and no closures yet. -/
def store0 : Store := ⟨[[]], 0⟩

/-! ## The reader (src/diylisp/parser.py)

Source text is a `List Char`; positions index into it as in Python.  The
reader's mutual recursion (`do_parse` / `parse_expr` / `parse_quote`) is
made total with the same fuel device as the evaluator: `do_parse` consumes
one fuel unit per nesting level, so `length + 2` fuel can never run out on
a real parse. -/

def WHITESPACE : List Char := [' ', '\t', '\n', '\r']

def TOK_PAR_OPEN : Char := '('

def TOK_PAR_CLOSE : Char := ')'

/-- The single-quote character (`TOK_QUOTE` in parser.py). -/
def TOK_QUOTE : Char := Char.ofNat 39

def skip_until_go (len : Nat) (chars : List Char) : List Char → Nat → Nat
  | [], _ => len
  | c :: rest, i => if c ∈ chars then skip_until_go len chars rest (i + 1) else i

/-- `skip_until` (parser.py): first index `≥ start` whose character is not
in `chars`, or the length of the source. -/
def skip_until (source : List Char) (start : Nat) (chars : List Char) : Nat :=
  skip_until_go source.length chars (source.drop start) start

def find_chars_go (len : Nat) (chars : List Char) : List Char → Nat → Nat
  | [], _ => len
  | c :: rest, i => if c ∈ chars then i else find_chars_go len chars rest (i + 1)

/-- `find_chars` (parser.py): first index `≥ start` whose character is in
`chars`, or the length of the source. -/
def find_chars (source : List Char) (start : Nat) (chars : List Char) : Nat :=
  find_chars_go source.length chars (source.drop start) start

def skip_whitespace (source : List Char) (start : Nat) : Nat :=
  skip_until source start WHITESPACE

/-- `skip_symbol` (parser.py): scan to the next whitespace, parenthesis or
quote character. -/
def skip_symbol (source : List Char) (start : Nat) : Nat :=
  find_chars source start (WHITESPACE ++ [TOK_PAR_OPEN, TOK_PAR_CLOSE, TOK_QUOTE])

/-- Python slice `source[a:b]`. -/
def pySlice (source : List Char) (a b : Nat) : List Char :=
  (source.drop a).take (b - a)

/-- `next_token` (parser.py): the maximal symbol run starting at `pos`
together with its end position. -/
def next_token (source : List Char) (pos : Nat) : List Char × Nat :=
  let pend := skip_symbol source pos
  (pySlice source pos pend, pend)

def digitsToNat (ds : List Char) : Nat :=
  ds.foldl (fun acc c => acc * 10 + (c.toNat - 48)) 0

/-- Python 2 `int(tok)` on a whitespace-free token: an optional sign
followed by at least one decimal digit, else `ValueError` (`none`). -/
def pyInt (tok : List Char) : Option Int :=
  match tok with
  | [] => none
  | c :: rest =>
    if c = '-' then
      if rest ≠ [] ∧ rest.all Char.isDigit then some (-(digitsToNat rest : Int)) else none
    else if c = '+' then
      if rest ≠ [] ∧ rest.all Char.isDigit then some ((digitsToNat rest : Int)) else none
    else if (c :: rest).all Char.isDigit then some ((digitsToNat (c :: rest) : Int))
    else none

/-- `parse_int` (parser.py): `None` on an empty token or a token `int()`
rejects, otherwise the integer and the end position. -/
def parse_int (source : List Char) (pos : Nat) : Option (SExpr × Nat) :=
  let (tok, pend) := next_token source pos
  if tok = [] then none
  else match pyInt tok with
    | some n => some (.int n, pend)
    | none => none

/-- `parse_boolean` (parser.py): only the tokens `#t` and `#f` are boolean
literals; any other `#`-token is a fatal parse error. -/
def parse_boolean (source : List Char) (pos : Nat) : Except Err (SExpr × Nat) :=
  if source.getD pos ' ' ≠ '#' then .error (.pyError "AssertionError")
  else
    let (tok, pend) := next_token source pos
    if tok = ['#', 't'] then .ok (.bool true, pend)
    else if tok = ['#', 'f'] then .ok (.bool false, pend)
    else .error (.lisp "Parse error")

/-- `parse_symbol` (parser.py): the token itself as a symbol. -/
def parse_symbol (source : List Char) (pos : Nat) : SExpr × Nat :=
  let (tok, pend) := next_token source pos
  (.sym (String.mk tok), pend)

def find_matching_paren_go (source : List Char) : Nat → Nat → Nat → Except Err Nat
  | _, _, 0 => .error .outOfFuel
  | pos, ob, fuel + 1 =>
    if ob = 0 then .ok pos
    else
      let pos2 := pos + 1
      if source.length = pos2 then .error (.lisp "Incomplete expression")
      else
        let c := source.getD pos2 ' '
        let ob2 := if c = TOK_PAR_OPEN then ob + 1 else if c = TOK_PAR_CLOSE then ob - 1 else ob
        find_matching_paren_go source pos2 ob2 fuel

/-- `find_matching_paren` (parser.py): index of the parenthesis matching
the one at `start`; an unmatched `(` is a fatal "Incomplete expression"
`LispError`. -/
def find_matching_paren (source : List Char) (start : Nat) : Except Err Nat :=
  if source.getD start ' ' ≠ TOK_PAR_OPEN then .error (.pyError "AssertionError")
  else find_matching_paren_go source start 1 (source.length + 2)

/-- One line of `re.sub(r";.*\n", "\n", source)`: a line that is followed
by a newline loses everything from its first `;` on. -/
def strip_comment_line (line : List Char) : List Char :=
  line.takeWhile (fun c => c ≠ ';')

/-- `remove_comments` (parser.py): `re.sub(r";.*\n", "\n", source)`.  Since
`.` does not match a newline, every match is `;`…`\n` within one line, so
each line followed by a newline is truncated at its first `;`; the final
segment (not followed by a newline) is never matched and stays intact. -/
def remove_comments (source : List Char) : List Char :=
  let segs := source.splitOn '\n'
  List.intercalate ['\n'] (segs.dropLast.map strip_comment_line ++ [segs.getLastD []])

/-- Python `str.strip()` whitespace. -/
def py_space (c : Char) : Bool :=
  c = ' ' || c = '\t' || c = '\n' || c = '\r' || c = '\x0B' || c = '\x0C'

/-- Python `source.strip()`. -/
def pyStrip (s : List Char) : List Char :=
  ((s.dropWhile py_space).reverse.dropWhile py_space).reverse

/-- `parse_quote` (parser.py): `'expr` becomes `(quote expr)`. -/
def parse_quote (dp : List Char → Nat → Except Err (SExpr × Nat)) (source : List Char)
    (pos : Nat) : Except Err (SExpr × Nat) :=
  if source.getD pos ' ' ≠ TOK_QUOTE then .error (.pyError "AssertionError")
  else
    match dp source (pos + 1) with
    | .error e => .error e
    | .ok (sub, pos2) => .ok (.list [.sym "quote", sub], pos2)

/-- The `while pos < pclose` loop of `parse_expr` (parser.py): skip
whitespace, parse one subexpression from the slice `source[:pclose]`,
append it, advance one extra character, repeat. -/
def parse_expr_loop (dp : List Char → Nat → Except Err (SExpr × Nat)) (source : List Char)
    (pclose : Nat) : Nat → Nat → List SExpr → Except Err (List SExpr)
  | 0, _, _ => .error .outOfFuel
  | fuel + 1, pos, acc =>
    if pos < pclose then
      let pos2 := skip_whitespace source pos
      match dp (source.take pclose) pos2 with
      | .error e => .error e
      | .ok (sub, pos3) => parse_expr_loop dp source pclose fuel (pos3 + 1) (acc ++ [sub])
    else .ok acc

/-- `parse_expr` (parser.py): locate the matching `)` first, parse the
elements of the slice before it, and resume right after it. -/
def parse_expr (dp : List Char → Nat → Except Err (SExpr × Nat)) (source : List Char)
    (pos : Nat) : Except Err (SExpr × Nat) :=
  if source.getD pos ' ' ≠ TOK_PAR_OPEN then .error (.pyError "AssertionError")
  else match find_matching_paren source pos with
  | .error e => .error e
  | .ok pclose =>
    match parse_expr_loop dp source pclose (pclose + 2) (pos + 1) [] with
    | .error e => .error e
    | .ok items => .ok (.list items, pclose + 1)

/-- `do_parse` (parser.py): skip whitespace and dispatch on the current
character.  The `TOK_PAR_CLOSE` branch of the source (lines 53–54) only
logs and assigns neither `expr` nor `pend`, so the `return expr, pend`
that follows raises a host `UnboundLocalError` rather than a `LispError`;
reading past the end of the text raises a host `IndexError`. -/
def do_parse : Nat → List Char → Nat → Except Err (SExpr × Nat)
  | 0, _, _ => .error .outOfFuel
  | fuel + 1, source, pos0 =>
    let pos := skip_whitespace source pos0
    if pos < source.length then
      let c := source.getD pos ' '
      if c = TOK_PAR_OPEN then parse_expr (do_parse fuel) source pos
      else if c = TOK_PAR_CLOSE then .error (.pyError "UnboundLocalError")
      else if c = TOK_QUOTE then parse_quote (do_parse fuel) source pos
      else if c = '#' then parse_boolean source pos
      else match parse_int source pos with
        | some r => .ok r
        | none => .ok (parse_symbol source pos)
    else .error (.pyError "IndexError")

/-- `parse` (parser.py): strip surrounding whitespace, remove comments
(in that order), parse one expression, and require it to span the whole
remaining text. -/
def parse (text : String) : Except Err SExpr :=
  let source := remove_comments (pyStrip text.toList)
  match do_parse (source.length + 2) source 0 with
  | .error e => .error e
  | .ok (expr, pend) =>
      if pend ≠ source.length then .error (.lisp "Expected EOF") else .ok expr

/-! ## Helper notions used by the theorem statements -/

/-- The keys of a dict. -/
def dictKeys (d : Dict) : List SExpr :=
  d.map Prod.fst

/-- First-defined choice of two optional values (`b` wins on the left being
`none`), used to state dict-update precedence. -/
def optOr (a b : Option SExpr) : Option SExpr :=
  match a with
  | some v => some v
  | none => b

/-- The result of a builtin call: the operation's value paired with the
untouched store (used to state that a builtin call never reads the
environment). -/
def builtin_result (op : String) (m n : Int) (st : Store) : Res :=
  match (BUILTINS op).getD (fun _ _ => .error .outOfFuel) m n with
  | .ok v => .ok (v, st)
  | .error e => .error e

/-! ## Helper lemmas -/

theorem listGetD_append_lt {α : Type} :
    ∀ (l1 l2 : List α) (i : Nat) (d : α), i < l1.length → (l1 ++ l2).getD i d = l1.getD i d
  | [], _, i, _, h => absurd h (by simp)
  | _ :: _, _, 0, _, _ => rfl
  | _ :: l1, l2, i + 1, d, h => listGetD_append_lt l1 l2 i d (Nat.lt_of_succ_lt_succ h)

theorem listGetD_append_len {α : Type} :
    ∀ (l : List α) (x : α) (d : α), (l ++ [x]).getD l.length d = x
  | [], _, _ => rfl
  | _ :: l, x, d => listGetD_append_len l x d

theorem listGetD_set_ne {α : Type} :
    ∀ (l : List α) (i j : Nat) (x : α) (d : α), i ≠ j → (l.set i x).getD j d = l.getD j d
  | [], _, _, _, _, _ => rfl
  | _ :: _, 0, 0, _, _, h => absurd rfl h
  | _ :: _, 0, _ + 1, _, _, _ => rfl
  | _ :: _, _ + 1, 0, _, _, _ => rfl
  | _ :: l, i + 1, j + 1, x, d, h =>
      listGetD_set_ne l i j x d (fun hh => h (by rw [hh]))

theorem dictLookup_insert (d : Dict) (k v k2 : SExpr) :
    dictLookup (dictInsert d k v) k2 = if k2 = k then some v else dictLookup d k2 := by
  induction d with
  | nil =>
      by_cases h : k2 = k
      · simp [dictInsert, dictLookup, h]
      · simp [dictInsert, dictLookup, h, Ne.symm h]
  | cons p d ih =>
      obtain ⟨a, vb⟩ := p
      by_cases ha : a = k
      · subst ha
        by_cases h : k2 = a
        · simp [dictInsert, dictLookup, h]
        · simp [dictInsert, dictLookup, h, Ne.symm h]
      · by_cases h2 : a = k2
        · subst h2
          simp [dictInsert, dictLookup, ha, Ne.symm ha]
        · simp [dictInsert, dictLookup, ha, h2, ih]

theorem dictLookup_not_mem (d : Dict) (k : SExpr) (h : k ∉ dictKeys d) :
    dictLookup d k = none := by
  induction d with
  | nil => rfl
  | cons p d ih =>
      obtain ⟨a, vb⟩ := p
      simp only [dictKeys, List.map_cons, List.mem_cons, not_or] at h
      have hak : a ≠ k := fun hh => h.1 hh.symm
      simp [dictLookup, hak, ih (by simpa [dictKeys] using h.2)]

theorem dictLookup_update (b : Dict) (hb : (dictKeys b).Nodup) (d : Dict) (k : SExpr) :
    dictLookup (dictUpdate d b) k = optOr (dictLookup b k) (dictLookup d k) := by
  induction b generalizing d with
  | nil => simp [dictUpdate, optOr, dictLookup]
  | cons p b ih =>
      obtain ⟨a, vb⟩ := p
      have hb1 : a ∉ dictKeys b ∧ (dictKeys b).Nodup := by
        simpa [dictKeys, List.nodup_cons] using hb
      have hstep : dictUpdate d ((a, vb) :: b) = dictUpdate (dictInsert d a vb) b := rfl
      rw [hstep, ih hb1.2]
      by_cases h : k = a
      · subst h
        rw [dictLookup_not_mem b k hb1.1]
        simp [dictLookup, optOr, dictLookup_insert]
      · simp [dictLookup, optOr, dictLookup_insert, h, Ne.symm h]

theorem is_atom_eq_not_is_list (v : SExpr) : is_atom v = !is_list v := by
  cases v <;> rfl

/-- Sanity: the spec's §8 arithmetic example `(+ 2 3)` evaluates to `5`. -/
theorem sanity_add : evaluate 5 (.list [.sym "+", .int 2, .int 3]) 0 store0 = .ok (.int 5, store0) := rfl

/-- Sanity: `(/ 7 -2)` takes the floor, the host's Python 2 division. -/
theorem sanity_div : evaluate 5 (.list [.sym "/", .int 7, .int (-2)]) 0 store0 = .ok (.int (-4), store0) := rfl

/-- Sanity: a call of a literal lambda binds its parameter in a fresh
environment object. -/
theorem sanity_call :
    evaluate 5 (.list [.list [.sym "lambda", .list [.sym "x"], .sym "x"], .int 42]) 0 store0 =
      .ok (.int 42, ⟨[[], [(.sym "x", .int 42)]], 1⟩) := rfl

/-- Sanity: the spec's §8 reader edge cases and literals. -/
theorem sanity_reader :
    parse "(foo bar)" = .ok (.list [.sym "foo", .sym "bar"])
    ∧ parse "#t" = .ok (.bool true)
    ∧ parse "-42" = .ok (.int (-42))
    ∧ parse "(foo (bar 1) baz)" = .ok (.list [.sym "foo", .list [.sym "bar", .int 1], .sym "baz"])
    ∧ parse "(foo (bar 1)" = .error (.lisp "Incomplete expression")
    ∧ parse "(eq (quote (1)) (quote (1)))" =
        .ok (.list [.sym "eq", .list [.sym "quote", .list [.int 1]],
          .list [.sym "quote", .list [.int 1]]]) :=
  ⟨rfl, rfl, rfl, rfl, rfl, rfl⟩

/-- Sanity: host equality identifies booleans with 0/1, also inside lists. -/
theorem sanity_pyEq :
    pyEq (.int 1) (.bool true) = true ∧ pyEq (.list [.int 1]) (.list [.bool true]) = true :=
  ⟨rfl, rfl⟩

/-! ## Claims -/

/-- C1: For every closure call, each argument expression is evaluated in the
caller's current environment `env`, left to right (`eval_args`, whose cons
equation is the second conjunct); the values are paired positionally with
the closure's parameters and installed by a single `Environment.extend` of
the closure's captured environment `cenv` (not the caller's), and the body
is then evaluated exactly once against the freshly allocated environment,
its value being the call's result. -/
theorem C1_closure_application
    (ev : SExpr → Nat → Store → Res) (i cenv : Nat) (params : List SExpr) (body : SExpr)
    (args : List SExpr) (env : Nat) (st st1 : Store) (values : List SExpr)
    (h1 : eval_args ev args env st = .ok (values, st1))
    (h2 : args.length = params.length) :
    (eval_closure ev (.closure i cenv params body :: args) env st =
        ev body st1.heap.length
          ⟨st1.heap ++ [dictUpdate (heapDict st1 cenv) (dictFromPairs (params.zip values))],
            st1.nextId⟩)
    ∧ (∀ e es env2 st2, eval_args ev (e :: es) env2 st2 =
        (ev e env2 st2).bind fun r =>
          (eval_args ev es env2 r.2).bind fun q => .ok (r.1 :: q.1, q.2)) := by
  constructor
  · simp [eval_closure, h2, h1, Environment.extend, Bind.bind, Except.bind]
  · intro e es env2 st2
    rfl

/-- C1 witness: the identity closure applied to `42`. -/
theorem C1_closure_application_witness :
    eval_args (evaluate 3) [.int 42] 0 store0 = .ok ([.int 42], store0)
    ∧ ([SExpr.int 42].length = [SExpr.sym "x"].length)
    ∧ eval_closure (evaluate 3) [.closure 7 0 [.sym "x"] (.sym "x"), .int 42] 0 store0 =
        evaluate 3 (.sym "x") 1 ⟨[[], [(.sym "x", .int 42)]], 0⟩ :=
  ⟨rfl, rfl,
    (C1_closure_application (evaluate 3) 7 0 [.sym "x"] (.sym "x") [.int 42] 0 store0 store0
      [.int 42] rfl rfl).1⟩

/-- C2 (counterexample): the claim says every value other than `#f` is
truthy, including `0` and the empty list; but `eval_if` uses host (Python)
truthiness, so a predicate evaluating to `0` (or to the empty list) selects
the alternative branch: `(if 0 1 2)` yields `2`, not the `1` the claim
requires. -/
theorem C2_truthiness_counterexample :
    evaluate 2 (.int 0) 0 store0 = .ok (.int 0, store0)
    ∧ SExpr.int 0 ≠ .bool false
    ∧ evaluate 5 (.list [.sym "if", .int 0, .int 1, .int 2]) 0 store0 = .ok (.int 2, store0)
    ∧ evaluate 2 (.int 1) 0 store0 = .ok (.int 1, store0)
    ∧ SExpr.int 2 ≠ .int 1
    ∧ evaluate 5 (.list [.sym "if", .list [.sym "quote", .list []], .int 1, .int 2]) 0 store0 =
        .ok (.int 2, store0) :=
  ⟨rfl, by decide, rfl, rfl, by decide, rfl⟩

/-- C2 (amended): `(if p c a)` evaluates `p`; if its value is truthy in the
host sense — not `#f`, not the integer `0`, not the empty list and not the
empty symbol — then `c` is evaluated and returned and `a` is never
evaluated, else `a` is evaluated and returned and `c` is never evaluated. -/
theorem C2_if_host_truthiness
    (ev : SExpr → Nat → Store → Res) (p c a : SExpr) (env : Nat) (st st1 : Store) (v : SExpr)
    (h : ev p env st = .ok (v, st1)) :
    (eval_if ev [.sym "if", p, c, a] env st =
        if pyTruthy v then ev c env st1 else ev a env st1)
    ∧ (pyTruthy v = true → ∀ a2, eval_if ev [.sym "if", p, c, a2] env st = ev c env st1)
    ∧ (pyTruthy v = false → ∀ c2, eval_if ev [.sym "if", p, c2, a] env st = ev a env st1)
    ∧ (∀ w, pyTruthy w = true ↔
        (w ≠ .bool false ∧ w ≠ .int 0 ∧ w ≠ .list [] ∧ w ≠ .sym "")) := by
  refine ⟨?_, ?_, ?_, ?_⟩
  · simp [eval_if, assert_exp_length, h, Bind.bind, Except.bind]
  · intro ht a2
    simp [eval_if, assert_exp_length, h, ht, Bind.bind, Except.bind]
  · intro ht c2
    simp [eval_if, assert_exp_length, h, ht, Bind.bind, Except.bind]
  · intro w
    cases w <;> simp [pyTruthy, List.isEmpty_iff]

/-- C2 witness: a true predicate selects the consequence branch. -/
theorem C2_if_host_truthiness_witness :
    evaluate 4 (.bool true) 0 store0 = .ok (.bool true, store0)
    ∧ eval_if (evaluate 4) [.sym "if", .bool true, .int 1, .int 2] 0 store0 =
        .ok (.int 1, store0) :=
  ⟨rfl,
    (C2_if_host_truthiness (evaluate 4) (.bool true) (.int 1) (.int 2) 0 store0 store0
      (.bool true) rfl).1⟩

/-- C3: evaluating a three-element list `(lambda params body)` whose second
element is a list returns a new `Closure` value — a fresh object identity —
capturing the environment active at this evaluation, the parameter list and
the unevaluated body expression. -/
theorem C3_lambda_captures_environment (f : Nat) (ps : List SExpr) (b : SExpr) (env : Nat)
    (st : Store) :
    evaluate (f + 1) (.list [.sym "lambda", .list ps, b]) env st =
      .ok (.closure st.nextId env ps b, ⟨st.heap, st.nextId + 1⟩) := rfl

/-- C4: `Environment.set` (reached via the `define` form) fails with a
`LispError` if and only if the symbol already has a binding in this same
environment object; when the symbol is unbound there, `set` adds the
binding to that object's dict in place, and the `define` form returns the
bound value. -/
theorem C4_define_write_once (st : Store) (a : Nat) (k v : SExpr) :
    (Environment.set st a k v = .error (.lisp "already defined") ↔
        (dictLookup (heapDict st a) k).isSome = true)
    ∧ ((dictLookup (heapDict st a) k).isSome = false →
        Environment.set st a k v = .ok ⟨st.heap.set a (heapDict st a ++ [(k, v)]), st.nextId⟩)
    ∧ (∀ f s e w st1, evaluate f e a st = .ok (w, st1) →
        (dictLookup (heapDict st1 a) (.sym s)).isSome = false →
        evaluate (f + 1) (.list [.sym "define", .sym s, e]) a st =
          .ok (w, ⟨st1.heap.set a (heapDict st1 a ++ [(.sym s, w)]), st1.nextId⟩))
    ∧ (∀ f s e w st1, evaluate f e a st = .ok (w, st1) →
        (dictLookup (heapDict st1 a) (.sym s)).isSome = true →
        evaluate (f + 1) (.list [.sym "define", .sym s, e]) a st =
          .error (.lisp "already defined")) := by
  refine ⟨?_, ?_, ?_, ?_⟩
  · by_cases hs : (dictLookup (heapDict st a) k).isSome <;>
      simp [Environment.set, hs]
  · intro hs
    simp [Environment.set, hs]
  · intro f s e w st1 hev hs
    simp [evaluate, eval_list, eval_define, is_atom, is_symbol, hev, Environment.set, hs,
      Bind.bind, Except.bind]
  · intro f s e w st1 hev hs
    simp [evaluate, eval_list, eval_define, is_atom, is_symbol, hev, Environment.set, hs,
      Bind.bind, Except.bind]

/-- C4 witness: defining the unbound `x` succeeds and returns the value;
its hypotheses are discharged on the root store. -/
theorem C4_define_write_once_witness :
    evaluate 1 (.int 7) 0 store0 = .ok (.int 7, store0)
    ∧ (dictLookup (heapDict store0 0) (.sym "x")).isSome = false
    ∧ evaluate 2 (.list [.sym "define", .sym "x", .int 7]) 0 store0 =
        .ok (.int 7, ⟨[[(.sym "x", .int 7)]], 0⟩) :=
  ⟨rfl, rfl,
    (C4_define_write_once store0 0 (.sym "x") (.int 7)).2.2.1 1 "x" (.int 7) (.int 7) store0
      rfl rfl⟩

/-- C5: `Environment.extend` returns a new environment object (fresh
address) whose visible bindings are the union of the parent's bindings and
`b`, with `b` taking precedence on key collisions; the parent's own dict is
completely unchanged, and a name later `define`d in the child is invisible
to lookups against the parent. -/
theorem C5_extend_snapshot (st : Store) (a : Nat) (b : Dict) (n : Nat) (st2 : Store)
    (ha : a < st.heap.length)
    (hb : (dictKeys b).Nodup)
    (hext : Environment.extend st a b = (n, st2)) :
    n = st.heap.length
    ∧ a ≠ n
    ∧ (∀ k, dictLookup (heapDict st2 n) k =
        optOr (dictLookup b k) (dictLookup (heapDict st a) k))
    ∧ heapDict st2 a = heapDict st a
    ∧ (∀ k v st3, Environment.set st2 n k v = .ok st3 →
        heapDict st3 a = heapDict st a ∧
        Environment.lookup st3 a k = Environment.lookup st a k) := by
  simp only [Environment.extend] at hext
  obtain ⟨hn, hst2⟩ : st.heap.length = n ∧
      (⟨st.heap ++ [dictUpdate (heapDict st a) b], st.nextId⟩ : Store) = st2 :=
    Prod.mk.injEq .. ▸ hext
  subst hn
  subst hst2
  have hparent : heapDict (⟨st.heap ++ [dictUpdate (heapDict st a) b], st.nextId⟩ : Store) a =
      heapDict st a := by
    simp only [heapDict]
    exact listGetD_append_lt st.heap _ a [] ha
  refine ⟨rfl, Nat.ne_of_lt ha, ?_, hparent, ?_⟩
  · intro k
    have hchild : heapDict (⟨st.heap ++ [dictUpdate (heapDict st a) b], st.nextId⟩ : Store)
        st.heap.length = dictUpdate (heapDict st a) b := by
      simp only [heapDict]
      exact listGetD_append_len st.heap _ []
    rw [hchild, dictLookup_update b hb]
  · intro k v st3 hset
    by_cases hs : (dictLookup
        (heapDict (⟨st.heap ++ [dictUpdate (heapDict st a) b], st.nextId⟩ : Store)
          st.heap.length) k).isSome
    · simp [Environment.set, hs] at hset
    · simp only [Environment.set, hs, Bool.false_eq_true, if_neg, ite_false,
        Except.ok.injEq] at hset
      have hd : heapDict st3 a = heapDict st a := by
        rw [← hset]
        simp only [heapDict]
        rw [listGetD_set_ne _ _ _ _ _ (Ne.symm (Nat.ne_of_lt ha))]
        simpa [heapDict] using hparent
      exact ⟨hd, by simp [Environment.lookup, hd]⟩

/-- C5 witness: extending a one-binding root with `x ↦ 2`; a subsequent
`define` against the child leaves the parent's dict untouched. -/
theorem C5_extend_snapshot_witness :
    (0 < (⟨[[(.sym "y", .int 1)]], 0⟩ : Store).heap.length)
    ∧ (dictKeys [(.sym "x", .int 2)]).Nodup
    ∧ Environment.extend ⟨[[(.sym "y", .int 1)]], 0⟩ 0 [(.sym "x", .int 2)] =
        (1, ⟨[[(.sym "y", .int 1)], [(.sym "y", .int 1), (.sym "x", .int 2)]], 0⟩)
    ∧ heapDict ⟨[[(.sym "y", .int 1)], [(.sym "y", .int 1), (.sym "x", .int 2)]], 0⟩ 0 =
        heapDict ⟨[[(.sym "y", .int 1)]], 0⟩ 0 :=
  ⟨by decide, by decide, rfl,
    (C5_extend_snapshot ⟨[[(.sym "y", .int 1)]], 0⟩ 0 [(.sym "x", .int 2)] 1
      ⟨[[(.sym "y", .int 1)], [(.sym "y", .int 1), (.sym "x", .int 2)]], 0⟩
      (by decide) (by decide) rfl).2.2.2.1⟩

/-- C6: `(eq a b)` evaluates both arguments and returns true only if both
resulting values are atoms (non-list values) and compare equal under the
host equality; whenever either resulting value is a list the result is the
boolean false — never an error — even for structurally identical lists. -/
theorem C6_eq_atoms_only
    (ev : SExpr → Nat → Store → Res) (e1 e2 : SExpr) (env : Nat) (st st1 st2 : Store)
    (va vb : SExpr)
    (h1 : ev e1 env st = .ok (va, st1)) (h2 : ev e2 env st1 = .ok (vb, st2)) :
    eval_eq ev [.sym "eq", e1, e2] env st =
      .ok (.bool (is_atom va && is_atom vb && pyEq va vb), st2)
    ∧ ((is_list va || is_list vb) = true →
        eval_eq ev [.sym "eq", e1, e2] env st = .ok (.bool false, st2)) := by
  have hmain : eval_eq ev [.sym "eq", e1, e2] env st =
      .ok (.bool (is_atom va && is_atom vb && pyEq va vb), st2) := by
    cases hva : is_atom va <;> cases hvb : is_atom vb <;>
      simp [eval_eq, assert_exp_length, h1, h2, hva, hvb, Bind.bind, Except.bind]
  refine ⟨hmain, fun hl => ?_⟩
  rw [hmain]
  rcases Bool.or_eq_true .. |>.mp hl with h | h <;>
    simp [is_atom_eq_not_is_list, h]

/-- C6 witness: the spec's own example, `(eq (quote (1)) (quote (1)))` on
two structurally identical lists, comes out false without an error. -/
theorem C6_eq_atoms_only_witness :
    evaluate 5 (.list [.sym "quote", .list [.int 1]]) 0 store0 = .ok (.list [.int 1], store0)
    ∧ eval_eq (evaluate 5)
        [.sym "eq", .list [.sym "quote", .list [.int 1]], .list [.sym "quote", .list [.int 1]]]
        0 store0 = .ok (.bool false, store0) :=
  ⟨rfl,
    (C6_eq_atoms_only (evaluate 5) (.list [.sym "quote", .list [.int 1]])
      (.list [.sym "quote", .list [.int 1]]) 0 store0 store0 store0
      (.list [.int 1]) (.list [.int 1]) rfl rfl).1⟩

/-- C7 (counterexample): the claim says `/` is truncating division (round
toward zero), but the code uses the host's `operator.div` — Python 2 floor
division: `(/ 7 -2)` evaluates to `-4`, while truncation gives `-3`. -/
theorem C7_truncation_counterexample :
    evaluate 5 (.list [.sym "/", .int 7, .int (-2)]) 0 store0 = .ok (.int (-4), store0)
    ∧ Int.tdiv 7 (-2) = -3
    ∧ ((-4 : Int) ≠ -3) :=
  ⟨rfl, by decide, by decide⟩

/-- C7 (amended): for expressions evaluating to integers `va` and `vb` with
`vb` nonzero, `(/ a b)` returns the floor division of `va` by `vb`
(quotient rounded toward negative infinity, Python 2 semantics), including
when exactly one operand is negative. -/
theorem C7_floor_division (f : Nat) (a b : SExpr) (env : Nat) (st st1 st2 : Store)
    (va vb : Int)
    (h1 : evaluate f a env st = .ok (.int va, st1))
    (h2 : evaluate f b env st1 = .ok (.int vb, st2))
    (h3 : vb ≠ 0) :
    evaluate (f + 1) (.list [.sym "/", a, b]) env st = .ok (.int (Int.fdiv va vb), st2) := by
  simp [evaluate, eval_list, eval_builtin, assert_exp_length, BUILTINS, h1, h2, h3,
    is_atom, Bind.bind, Except.bind]

/-- C7 witness: `(/ 7 -2)` with both operand evaluations discharged on the
root store; the floor quotient is `-4`. -/
theorem C7_floor_division_witness :
    evaluate 1 (.int 7) 0 store0 = .ok (.int 7, store0)
    ∧ evaluate 1 (.int (-2)) 0 store0 = .ok (.int (-2), store0)
    ∧ ((-2 : Int) ≠ 0)
    ∧ evaluate 2 (.list [.sym "/", .int 7, .int (-2)]) 0 store0 = .ok (.int (-4), store0) :=
  ⟨rfl, rfl, by decide,
    C7_floor_division 1 (.int 7) (.int (-2)) 0 store0 store0 store0 7 (-2) rfl rfl (by decide)⟩

/-- C8: on source text whose first non-whitespace character (after comment
stripping) is an unmatched closing parenthesis, the `)` branch of
`do_parse` assigns nothing, so `parse` fails with a host
`UnboundLocalError` — not with the `UnmatchedParen` `LispError` the spec
prescribes, and not by returning a value. -/
theorem C8_leading_close_paren_crashes (text : String)
    (h : (remove_comments (pyStrip text.toList)).head? = some TOK_PAR_CLOSE) :
    parse text = .error (.pyError "UnboundLocalError") := by
  obtain ⟨rest, hrest⟩ : ∃ rest,
      remove_comments (pyStrip text.toList) = TOK_PAR_CLOSE :: rest := by
    cases hs : remove_comments (pyStrip text.toList) with
    | nil => rw [hs] at h; simp at h
    | cons c rest =>
        rw [hs] at h
        simp only [List.head?_cons, Option.some.injEq] at h
        exact ⟨rest, by rw [h]⟩
  simp only [parse]
  rw [hrest]
  have hfuel : (TOK_PAR_CLOSE :: rest).length + 2 = rest.length + 2 + 1 := by
    simp only [List.length_cons]
  rw [hfuel, do_parse]
  have hsw : skip_whitespace (TOK_PAR_CLOSE :: rest) 0 = 0 := rfl
  rw [hsw]
  simp +decide [TOK_PAR_CLOSE, TOK_PAR_OPEN, TOK_QUOTE]

/-- C8 witness: the one-character text `)` crashes with the host error. -/
theorem C8_leading_close_paren_crashes_witness :
    (remove_comments (pyStrip ")".toList)).head? = some TOK_PAR_CLOSE
    ∧ parse ")" = .error (.pyError "UnboundLocalError") :=
  ⟨rfl, C8_leading_close_paren_crashes ")" rfl⟩

/-- C9: `parse` strips surrounding whitespace **before** removing comments,
so a well-formed expression followed by a `;` comment terminated by the
text's final newline loses that newline to the strip, the comment survives
tokenization, and `parse` fails with the `Expected EOF` `LispError` —
although the same text with the comment removed parses successfully, and
`remove_comments` alone would have handled it. -/
theorem C9_trailing_comment_breaks_parse :
    parse "(foo bar) ; c\n" = .error (.lisp "Expected EOF")
    ∧ remove_comments ("(foo bar) ; c\n".toList) = "(foo bar) \n".toList
    ∧ parse "(foo bar) \n" = .ok (.list [.sym "foo", .sym "bar"])
    ∧ parse "(foo ; c\nbar)" = .ok (.list [.sym "foo", .sym "bar"]) :=
  ⟨rfl, rfl, rfl, rfl⟩

/-- C10: a list whose head is one of the seven builtin symbols dispatches
to `eval_builtin` without ever looking the head up in the environment
(first conjunct), so the call's result on integer literals is a pure
function of the operator and the operands, whatever the store binds the
operator's name to (second conjunct). -/
theorem C10_builtin_head_ignores_environment (op : String)
    (h : op ∈ ["+", "-", "*", "/", "mod", ">", "<"]) :
    (∀ f args env st, evaluate (f + 1) (.list (.sym op :: args)) env st =
        eval_builtin (evaluate f) (.sym op :: args) env st)
    ∧ (∀ f m n env st, evaluate (f + 2) (.list [.sym op, .int m, .int n]) env st =
        builtin_result op m n st) := by
  simp only [List.mem_cons, List.not_mem_nil, or_false] at h
  rcases h with rfl | rfl | rfl | rfl | rfl | rfl | rfl <;>
    exact ⟨fun f args env st => rfl, fun f m n env st => rfl⟩

/-- C10 witness: `(+ 2 3)` still adds even when the store binds `+` to the
integer `999` in the current environment. -/
theorem C10_builtin_head_ignores_environment_witness :
    ("+" ∈ ["+", "-", "*", "/", "mod", ">", "<"])
    ∧ evaluate 3 (.list [.sym "+", .int 2, .int 3]) 0 ⟨[[(.sym "+", .int 999)]], 0⟩ =
        .ok (.int 5, ⟨[[(.sym "+", .int 999)]], 0⟩) :=
  ⟨by simp,
    (C10_builtin_head_ignores_environment "+" (by simp)).2 1 2 3 0 ⟨[[(.sym "+", .int 999)]], 0⟩⟩
